import Mathlib

/-!
Verification of the authentication core and receptionist views of the
frontdesk-dentalclinic backend.

The Python modules are shallowly embedded: dict-shaped token payloads become a
structure recording the fields the code accesses (Python truthiness of each
field is modelled explicitly where the code relies on it); the external
effects (Supabase client library, HTTP calls, `jwt.decode`, the Django cache
and the ORM) become explicit function arguments and state records, so every
definition is an executable Lean function.
-/

namespace DentalClinic

/-- Value stored under `app_metadata['roles']`: the Python code accepts either
a list of strings or a single (string) value (`isinstance(..., list)` check in
`_fetch_roles_from_multiple_sources`). -/
inductive RolesVal where
  | ofList (xs : List String) : RolesVal
  | ofStr (s : String) : RolesVal
deriving Repr, DecidableEq

/-- Python truthiness of an `app_metadata['roles']` value: an empty list and
an empty string are falsy. -/
def RolesVal.truthy : RolesVal → Bool
  | .ofList xs => !xs.isEmpty
  | .ofStr s => !s.isEmpty

/-- `roles if isinstance(roles, list) else [roles]` from
`_fetch_roles_from_multiple_sources`. -/
def RolesVal.toList : RolesVal → List String
  | .ofList xs => xs
  | .ofStr s => [s]

/-- The `app_metadata` sub-dict of a token payload, restricted to the keys the
code reads (`roles`, `role`); an absent key is `none`. -/
structure AppMetadata where
  roles : Option RolesVal := none
  role : Option String := none
deriving Repr, DecidableEq

/-- A decoded token payload, restricted to the keys the code reads.  `none`
models an absent key (`payload.get(k)` returning `None`). -/
structure Payload where
  sub : Option String := none
  email : Option String := none
  role : Option String := none
  app_metadata : AppMetadata := {}
  exp : Option Int := none
  iss : Option String := none
  verification_method : Option String := none
deriving Repr, DecidableEq

/-- A row of the `profiles` table as returned by PostgREST
(`select=id,email,full_name,role`). -/
structure Profile where
  id : Option String := none
  email : Option String := none
  full_name : Option String := none
  role : Option String := none
deriving Repr, DecidableEq

/-! ### supabase_client.py -/

/-- `get_user_profile_by_id` (supabase_client.py): on HTTP 200 with a
non-empty JSON array return the first row, otherwise `None`.  The HTTP
response is passed in as status code plus decoded body. -/
def get_user_profile_by_id (status_code : Nat) (body : List Profile) : Option Profile :=
  if status_code = 200 then
    match body with
    | [] => none
    | p :: _ => some p
  else none

/-! ### supabase_auth.py : verify_token_combined and its three methods

The three verification methods perform I/O (Supabase client call, HTTP
request, local decode); `verify_token_combined` only observes, for each
method, whether it returned a payload, returned `None`, or raised.  They are
therefore embedded as an oracle `VMethod → Except String (Option Payload)`:
`.error` models a raised exception, `.ok none` a `None` return. -/

/-- The three verification methods of supabase_auth.py. -/
inductive VMethod where
  | client : VMethod
  | api : VMethod
  | fallback : VMethod
deriving Repr, DecidableEq

/-- The module-level configuration read by `verify_token_combined`:
`SUPABASE_CLIENT_AVAILABLE` and `settings.DEBUG`. -/
structure AuthEnv where
  clientAvailable : Bool
  debug : Bool
deriving Repr, DecidableEq

/-- The `methods_to_try` list computed by `verify_token_combined`
(supabase_auth.py lines 166-185), as a function of the preference string and
the module configuration. -/
def methods_to_try (env : AuthEnv) (preferred_method : String) : List VMethod :=
  if preferred_method = "client" then
    [VMethod.client, VMethod.api, VMethod.fallback]
  else if preferred_method = "api" then
    [VMethod.api, VMethod.client, VMethod.fallback]
  else if preferred_method = "fallback" then
    [VMethod.fallback]
  else
    (if env.clientAvailable then [VMethod.client, VMethod.api] else [VMethod.api])
      ++ (if env.debug then [VMethod.fallback] else [])

/-- The `for method in methods_to_try` loop of `verify_token_combined`: run
each method, swallow exceptions, return the first truthy result. -/
def tryMethods (run : VMethod → Except String (Option Payload)) :
    List VMethod → Option Payload
  | [] => none
  | m :: rest =>
    match run m with
    | Except.ok (some p) => some p
    | _ => tryMethods run rest

/-- `verify_token_combined` (supabase_auth.py lines 152-203): empty token is
falsy and short-circuits to `None`; otherwise the methods determined by
`preferred_method` are tried in order. -/
def verify_token_combined (env : AuthEnv) (run : VMethod → Except String (Option Payload))
    (token : String) (preferred_method : String) : Option Payload :=
  if token = "" then none
  else tryMethods run (methods_to_try env preferred_method)

/-- A method outcome that `verify_token_combined`'s loop does not accept:
either an exception or a `None` return. -/
def methodFails (r : Except String (Option Payload)) : Prop :=
  ∀ p : Payload, r ≠ Except.ok (some p)

/-- `verify_token_with_jwt_fallback` (supabase_auth.py lines 117-150).  The
unverified `jwt.decode` is passed in as an `Except` (errors model
`jwt.DecodeError` / other exceptions), together with the current time and the
expected issuer.  Python truthiness: the expiry check `if exp and
current_time > exp` skips a zero (falsy) `exp`; the issuer comparison only
prints a warning and never rejects, so `expected_iss` does not influence the
result. -/
def verify_token_with_jwt_fallback (decodeRes : Except String Payload)
    (current_time : Int) (_expected_iss : String) : Option Payload :=
  match decodeRes with
  | Except.error _ => none
  | Except.ok payload =>
    match payload.exp with
    | some e =>
      if e ≠ 0 ∧ current_time > e then none
      else some { payload with verification_method := some "jwt_fallback" }
    | none => some { payload with verification_method := some "jwt_fallback" }

/-! ### authentication.py : cache layer -/

/-- `ROLE_CACHE_PREFIX` (authentication.py line 14). -/
def ROLE_CACHE_PREFIX : String := "user_roles_"

/-- `ROLE_CACHE_TTL = 60 * 5` seconds (authentication.py line 15). -/
def ROLE_CACHE_TTL : Nat := 60 * 5

/-- `TOKEN_CACHE_PREFIX` (authentication.py line 16). -/
def TOKEN_CACHE_PREFIX : String := "supabase_token_"

/-- `TOKEN_CACHE_TTL = 60 * 10` seconds (authentication.py line 17). -/
def TOKEN_CACHE_TTL : Nat := 60 * 10

/-- The Django cache as used by authentication.py: an association list per
value shape, each entry recording the key, the stored value and the TTL the
entry was stored with. -/
structure CacheState where
  tokenEntries : List (String × Payload × Nat) := []
  roleEntries : List (String × List String × Nat) := []
deriving Repr, DecidableEq

/-- `cache.get(key)` over the token entries. -/
def CacheState.getToken (st : CacheState) (key : String) : Option Payload :=
  match st.tokenEntries.find? (fun e => e.1 == key) with
  | some e => some e.2.1
  | none => none

/-- `cache.set(key, payload, ttl)` over the token entries. -/
def CacheState.setToken (st : CacheState) (key : String) (p : Payload) (ttl : Nat) :
    CacheState :=
  { st with tokenEntries := (key, p, ttl) :: st.tokenEntries }

/-- `cache.get(key)` over the role entries. -/
def CacheState.getRoles (st : CacheState) (key : String) : Option (List String) :=
  match st.roleEntries.find? (fun e => e.1 == key) with
  | some e => some e.2.1
  | none => none

/-- `cache.set(key, roles, ttl)` over the role entries. -/
def CacheState.setRoles (st : CacheState) (key : String) (rs : List String) (ttl : Nat) :
    CacheState :=
  { st with roleEntries := (key, rs, ttl) :: st.roleEntries }

/-- `SupabaseAuthentication._verify_token_with_cache` (authentication.py lines
108-126): the cache key is `TOKEN_CACHE_PREFIX` plus the token's first 32
characters; on a hit the cached payload is returned, otherwise the combined
verifier (passed in as `verify`) runs and a truthy result is cached with
`TOKEN_CACHE_TTL`. -/
def verify_token_with_cache (verify : String → Option Payload) (st : CacheState)
    (token : String) : Option Payload × CacheState :=
  let cache_key := TOKEN_CACHE_PREFIX ++ token.take 32
  match st.getToken cache_key with
  | some cached_payload => (some cached_payload, st)
  | none =>
    match verify token with
    | some payload => (some payload, st.setToken cache_key payload TOKEN_CACHE_TTL)
    | none => (none, st)

/-- `SupabaseAuthentication._get_user_roles` (authentication.py lines
128-141): a cached entry (`is None` check, so even an empty list counts) is
returned as-is; otherwise the multi-source fetch (passed in as `fetch`) runs
and its result is cached with `ROLE_CACHE_TTL`. -/
def get_user_roles (fetch : String → Payload → List String) (st : CacheState)
    (user_id : String) (payload : Payload) : List String × CacheState :=
  let cache_key := ROLE_CACHE_PREFIX ++ user_id
  match st.getRoles cache_key with
  | some roles => (roles, st)
  | none =>
    let roles := fetch user_id payload
    (roles, st.setRoles cache_key roles ROLE_CACHE_TTL)

/-! ### authentication.py : multi-source role resolution

`get_user_profile_by_id` and `get_roles_by_user_id` perform HTTP calls; their
outcomes for the given `user_id` are passed in as `Except` values, `.error`
modelling a raised exception. -/

/-- Source 4 of `_fetch_roles_from_multiple_sources`, the roles table lookup
(`if roles: return roles`; a raised exception falls through), followed by the
default `return []`. -/
def fetchRolesFromTable (rolesRes : Except String (List String)) : List String :=
  match rolesRes with
  | Except.ok roles => if !roles.isEmpty then roles else []
  | Except.error _ => []

/-- Source 3 of `_fetch_roles_from_multiple_sources`, the user profile lookup
(`if profile and profile.get('role')`; a raised exception falls through),
then source 4. -/
def fetchRolesFromLookups (profileRes : Except String (Option Profile))
    (rolesRes : Except String (List String)) : List String :=
  match profileRes with
  | Except.ok (some profile) =>
    match profile.role with
    | some r =>
      if r ≠ "" then [r]
      else fetchRolesFromTable rolesRes
    | none => fetchRolesFromTable rolesRes
  | _ => fetchRolesFromTable rolesRes

/-- The second half of source 2 of `_fetch_roles_from_multiple_sources`:
`if app_metadata.get('role')`, then sources 3-4. -/
def fetchRolesAfterMeta (profileRes : Except String (Option Profile))
    (rolesRes : Except String (List String)) (payload : Payload) : List String :=
  match payload.app_metadata.role with
  | some r =>
    if r ≠ "" then [r]
    else fetchRolesFromLookups profileRes rolesRes
  | none => fetchRolesFromLookups profileRes rolesRes

/-- Sources 2-4 of `_fetch_roles_from_multiple_sources`: the code reached
when source 1 (the token role claim) does not return.  Source 2 first checks
`app_metadata.get('roles')` for truthiness. -/
def fetchRolesAfterTokenRole (profileRes : Except String (Option Profile))
    (rolesRes : Except String (List String)) (payload : Payload) : List String :=
  match payload.app_metadata.roles with
  | some v =>
    if v.truthy then v.toList
    else fetchRolesAfterMeta profileRes rolesRes payload
  | none => fetchRolesAfterMeta profileRes rolesRes payload

/-- `SupabaseAuthentication._fetch_roles_from_multiple_sources`
(authentication.py lines 143-176).  Source 1: the token role claim, taken
only when truthy and different from the default `'authenticated'`. -/
def fetch_roles_from_multiple_sources (profileRes : Except String (Option Profile))
    (rolesRes : Except String (List String)) (payload : Payload) : List String :=
  match payload.role with
  | some token_role =>
    if token_role ≠ "" ∧ token_role ≠ "authenticated" then [token_role]
    else fetchRolesAfterTokenRole profileRes rolesRes payload
  | none => fetchRolesAfterTokenRole profileRes rolesRes payload

/-! ### String helpers

Python's `str.lower()` and no-argument `str.split()` are embedded as
structural recursions over the string's character list, so that they evaluate
inside the kernel. -/

/-- ASCII lowering of one character (the case the role strings use). -/
def asciiLowerChar (c : Char) : Char :=
  if 65 ≤ c.toNat ∧ c.toNat ≤ 90 then Char.ofNat (c.toNat + 32) else c

/-- Python's `str.lower()` over the character list. -/
def strToLower (s : String) : String := String.mk (s.data.map asciiLowerChar)

/-- Accumulator pass of Python's no-argument `str.split()`: split on
whitespace runs, dropping empty words. -/
def splitWSAux : List Char → List Char → List String
  | [], acc => if acc.isEmpty then [] else [String.mk acc.reverse]
  | c :: cs, acc =>
    if c.isWhitespace then
      if acc.isEmpty then splitWSAux cs []
      else String.mk acc.reverse :: splitWSAux cs []
    else splitWSAux cs (c :: acc)

/-! ### authentication.py : SupabaseUser and the authenticate hook -/

/-- `SupabaseUser` (authentication.py lines 19-58), restricted to the
attributes the verified claims read; `__init__` always sets
`is_authenticated = True`. -/
structure SupabaseUser where
  id : String
  email : Option String
  roles : List String
  is_authenticated : Bool
  raw_payload : Payload
deriving Repr, DecidableEq

/-- `SupabaseUser.has_role` (authentication.py lines 36-38):
`role_name.lower() in [r.lower() for r in self.roles]`. -/
def SupabaseUser.hasRole (roles : List String) (role_name : String) : Bool :=
  (roles.map strToLower).contains (strToLower role_name)

/-- `SupabaseUser.has_any_role` (authentication.py lines 40-44) after the
string-to-singleton normalisation: any of the names passes `has_role`. -/
def SupabaseUser.hasAnyRole (roles : List String) (role_names : List String) : Bool :=
  role_names.any (fun r => SupabaseUser.hasRole roles r)

/-- The outcome of `SupabaseAuthentication.authenticate`: `skip` models the
`return None` (DRF passes to the next authenticator), `fail` a raised
`AuthenticationFailed`, `ok` the returned `(user, token)` pair. -/
inductive AuthOutcome where
  | skip : AuthOutcome
  | fail (msg : String) : AuthOutcome
  | ok (user : SupabaseUser) (token : String) : AuthOutcome
deriving Repr, DecidableEq

/-- Python's `str.split()` (no argument): split on whitespace runs, dropping
empty words. -/
def splitWS (s : String) : List String := splitWSAux s.data []

/-- `SupabaseAuthentication.authenticate` (authentication.py lines 64-106)
over the raw `Authorization` header value.  The combined verifier and the
multi-source role fetch are passed in as functions; the Django cache is
threaded explicitly. -/
def authenticate (verify : String → Option Payload)
    (fetch : String → Payload → List String) (st : CacheState)
    (auth_header : String) : AuthOutcome × CacheState :=
  match splitWS auth_header with
  | [] => (AuthOutcome.skip, st)
  | w :: rest =>
    if strToLower w ≠ "bearer" then (AuthOutcome.skip, st)
    else
      match rest with
      | [] => (AuthOutcome.fail "Invalid token header. No credentials provided.", st)
      | _ :: _ :: _ =>
        (AuthOutcome.fail "Invalid token header. Token string should not contain spaces.", st)
      | [token] =>
        let vres := verify_token_with_cache verify st token
        match vres.1 with
        | none => (AuthOutcome.fail "Invalid token: Token verification failed", vres.2)
        | some payload =>
          match payload.sub with
          | none => (AuthOutcome.fail "Invalid token: No user ID found", vres.2)
          | some user_id =>
            if user_id = "" then
              (AuthOutcome.fail "Invalid token: No user ID found", vres.2)
            else
              let rres := get_user_roles fetch vres.2 user_id payload
              (AuthOutcome.ok
                { id := user_id, email := payload.email, roles := rres.1,
                  is_authenticated := true, raw_payload := payload } token,
                rres.2)

/-! ### permissions.py : IsRole -/

/-- The attributes of `request.user` read by `IsRole.has_permission`; a
missing or falsy user is modelled by `Option` at the call site. -/
structure RequestUser where
  roles : List String
  is_authenticated : Bool
deriving Repr, DecidableEq

/-- `IsRole.__init__` (permissions.py lines 8-9): the allow-list is lowered
once and stored. -/
def IsRole.init (allowed_roles : List String) : List String :=
  allowed_roles.map strToLower

/-- `IsRole.has_permission` (permissions.py lines 11-19) over the stored
(lowered) allow-list: falsy or unauthenticated users are rejected, otherwise
any user role whose lowering is in the allow-list grants access. -/
def IsRole.has_permission (allowed_roles : List String) (user : Option RequestUser) :
    Bool :=
  match user with
  | none => false
  | some u =>
    if !u.is_authenticated then false
    else u.roles.any (fun r => allowed_roles.contains (strToLower r))

/-! ### receptionist/models.py and receptionist/views.py

`TblAppointment` (models.py lines 31-54) declares exactly the fields below;
in particular it declares NO `remarks` field.  A Django model instance can
still receive arbitrary Python attributes by assignment, but `save()` only
persists declared fields, so the embedding keeps the declared fields and the
transient extra attributes apart. -/

/-- A `TblAppointmentStatus` row (models.py lines 22-28). -/
structure TblAppointmentStatus where
  appointment_status_id : Nat
  appointment_status_name : String
deriving Repr, DecidableEq

/-- The declared fields of `TblAppointment` (models.py lines 31-54); the
foreign keys are stored as ids, dates and times as strings. -/
structure TblAppointment where
  appointment_id : Nat
  patient_id : Nat
  created_at : Option String := none
  updated_at : Option String := none
  appointment_status_id : Option Nat := none
  appointment_date : Option String := none
  appointment_start_time : Option String := none
  appointment_end_time : Option String := none
  payment_status : Option String := none
deriving Repr, DecidableEq

/-- An in-memory `TblAppointment` instance: the declared fields plus the
transient Python attributes set on the object (attribute name, value).
Assigning to an undeclared attribute such as `remarks` lands in
`extra_attrs`; `save()` ignores them. -/
structure ApptInstance where
  fields : TblAppointment
  extra_attrs : List (String × String) := []
deriving Repr, DecidableEq

/-- The database state the receptionist views touch. -/
structure ReceptionDB where
  appointments : List TblAppointment
  statuses : List TblAppointmentStatus
deriving Repr, DecidableEq

/-- `get_object_or_404(TblAppointment, pk=pk)`. -/
def ReceptionDB.getAppointment (db : ReceptionDB) (pk : Nat) : Option TblAppointment :=
  db.appointments.find? (fun a => a.appointment_id == pk)

/-- `get_object_or_404(TblAppointmentStatus, appointment_status_name=name)`. -/
def ReceptionDB.getStatus (db : ReceptionDB) (name : String) :
    Option TblAppointmentStatus :=
  db.statuses.find? (fun s => s.appointment_status_name == name)

/-- `appointment.save()`: write the instance's declared fields back to its
row; the transient extra attributes are not persisted. -/
def ReceptionDB.save (db : ReceptionDB) (inst : ApptInstance) : ReceptionDB :=
  { db with
    appointments := db.appointments.map (fun a =>
      if a.appointment_id == inst.fields.appointment_id then inst.fields else a) }

/-- The shared body of the three status-transition views
(receptionist/views.py lines 21-67): look up the appointment and the named
status (404 on either miss), assign the status foreign key, assign
`.remarks` (an undeclared attribute, hence transient), save, return the 200
message.  `req_remarks` is `request.data.get("remarks", default)`. -/
def statusTransitionPut (db : ReceptionDB) (pk : Nat) (status_name : String)
    (default_remarks : String) (req_remarks : Option String) (message : String) :
    Except Nat (String × ReceptionDB) :=
  match db.getAppointment pk with
  | none => Except.error 404
  | some appointment =>
    match db.getStatus status_name with
    | none => Except.error 404
    | some target_status =>
      let inst : ApptInstance := { fields := appointment }
      let inst :=
        { inst with fields :=
            { inst.fields with
              appointment_status_id := some target_status.appointment_status_id } }
      let inst :=
        { inst with extra_attrs :=
            ("remarks", req_remarks.getD default_remarks) :: inst.extra_attrs }
      Except.ok (message, db.save inst)

/-- `ApproveAppointmentView.put` (views.py lines 21-33). -/
def approve_appointment_put (db : ReceptionDB) (pk : Nat) (req_remarks : Option String) :
    Except Nat (String × ReceptionDB) :=
  statusTransitionPut db pk "Approved" "" req_remarks "Appointment marked as Approved"

/-- `CancelAppointmentView.put` (views.py lines 37-51). -/
def cancel_appointment_put (db : ReceptionDB) (pk : Nat) (req_remarks : Option String) :
    Except Nat (String × ReceptionDB) :=
  statusTransitionPut db pk "Cancelled" "Appointment cancelled by receptionist"
    req_remarks "Appointment marked as Cancelled"

/-- `BillAppointmentView.put` (views.py lines 55-67). -/
def bill_appointment_put (db : ReceptionDB) (pk : Nat) (req_remarks : Option String) :
    Except Nat (String × ReceptionDB) :=
  statusTransitionPut db pk "Billed" "Marked as billed" req_remarks
    "Appointment marked as Billed"

/-! ### receptionist/views.py : AppointmentListView -/

/-- The joined view of an appointment row used by the list endpoint's
filters: the related status name (`appointment_status__appointment_status_name`,
`none` when the appointment has no status) and the related patient's last
name. -/
structure ApptRow where
  appointment_id : Nat
  status_name : Option String := none
  appointment_date : Option String := none
  patient_last_name : String := ""
deriving Repr, DecidableEq

/-- The `valid_statuses` allow-list in `AppointmentListView.get_queryset`
(views.py line 84). -/
def valid_statuses : List String := ["Approved", "Cancelled", "Billed", "Pending"]

/-- Naive list containment: is `needle` a contiguous run inside `hay`? -/
def charsContain (hay needle : List Char) : Bool :=
  match hay with
  | [] => needle.isEmpty
  | _ :: t => needle.isPrefixOf hay || charsContain t needle

/-- Django's `__icontains`: case-insensitive substring test. -/
def icontains (hay needle : String) : Bool :=
  charsContain (strToLower hay).data (strToLower needle).data

/-- `AppointmentListView.get_queryset` (views.py lines 74-94): start from all
appointments and narrow by each supplied (truthy) query parameter; a status
outside `valid_statuses` applies no filter. -/
def appointment_list_queryset (db : List ApptRow)
    (status_param date_param patient_param : Option String) : List ApptRow :=
  let q := db
  let q :=
    match status_param with
    | some s =>
      if s ≠ "" then
        if s ∈ valid_statuses then q.filter (fun a => a.status_name == some s) else q
      else q
    | none => q
  let q :=
    match date_param with
    | some d =>
      if d ≠ "" then q.filter (fun a => a.appointment_date == some d) else q
    | none => q
  let q :=
    match patient_param with
    | some p =>
      if p ≠ "" then q.filter (fun a => icontains a.patient_last_name p) else q
    | none => q
  q

/-! ### Specification-side definitions

Definitions in this section follow the wording of the specification claims
(for comparison against the code-derived functions above), not the code. -/

/-- First non-empty list in a list of role lists ("returning the first
non-empty result"). -/
def firstNonEmptyList : List (List String) → List String
  | [] => []
  | l :: ls => if l.isEmpty then firstNonEmptyList ls else l

/-- The token role claim as a role source, per the code's guard: truthy and
different from the default `'authenticated'`. -/
def roleSourceToken (p : Payload) : List String :=
  match p.role with
  | some r => if r ≠ "" ∧ r ≠ "authenticated" then [r] else []
  | none => []

/-- The token role claim as a role source, read literally off the claim: any
non-empty role claim is a non-empty result. -/
def roleSourceTokenLiteral (p : Payload) : List String :=
  match p.role with
  | some r => if r ≠ "" then [r] else []
  | none => []

/-- The `app_metadata['role']` half of the metadata role source. -/
def roleSourceMetaRole (p : Payload) : List String :=
  match p.app_metadata.role with
  | some r => if r ≠ "" then [r] else []
  | none => []

/-- The app-metadata role source: `app_metadata['roles']` (list or single
value) when truthy, else `app_metadata['role']`. -/
def roleSourceMeta (p : Payload) : List String :=
  match p.app_metadata.roles with
  | some v => if v.truthy then v.toList else roleSourceMetaRole p
  | none => roleSourceMetaRole p

/-- The profile-lookup role source: the profile's role when the lookup
succeeded and the role is truthy; a raised lookup counts as empty. -/
def roleSourceProfile (profileRes : Except String (Option Profile)) : List String :=
  match profileRes with
  | Except.ok (some profile) =>
    match profile.role with
    | some r => if r ≠ "" then [r] else []
    | none => []
  | _ => []

/-- The roles-table role source; a raised lookup counts as empty. -/
def roleSourceTable (rolesRes : Except String (List String)) : List String :=
  match rolesRes with
  | Except.ok roles => roles
  | Except.error _ => []

/-- The filter predicate the (amended) list-endpoint claim describes: an
appointment matches every supplied, truthy query parameter, where a status
parameter outside `valid_statuses` imposes no constraint. -/
def matchesParams (status_param date_param patient_param : Option String)
    (a : ApptRow) : Bool :=
  (match status_param with
   | some s =>
     if s ≠ "" ∧ s ∈ valid_statuses then a.status_name == some s else true
   | none => true)
  && (match date_param with
      | some d => if d ≠ "" then a.appointment_date == some d else true
      | none => true)
  && (match patient_param with
      | some p => if p ≠ "" then icontains a.patient_last_name p else true
      | none => true)

/-! ### Concrete instances for witnesses and counterexamples -/

/-- A sample verified payload. -/
def samplePayload : Payload :=
  { sub := some "user-1", email := some "a@b.c", role := some "authenticated",
    verification_method := some "supabase_client" }

/-- A sample configuration: client library importable, DEBUG off. -/
def sampleEnv : AuthEnv := { clientAvailable := true, debug := false }

/-- A method oracle on which every method succeeds with `samplePayload`. -/
def sampleRunAllOk : VMethod → Except String (Option Payload) :=
  fun _ => Except.ok (some samplePayload)

/-- A method oracle on which the client and API methods return `None` and
only the unverified local decode succeeds. -/
def sampleRunOnlyFallback : VMethod → Except String (Option Payload) :=
  fun m =>
    match m with
    | VMethod.fallback => Except.ok (some samplePayload)
    | _ => Except.ok none

/-- A cache state holding a token entry (under the prefix of a 33-character
token) and a role entry for `user-1`. -/
def sampleCache : CacheState :=
  { tokenEntries :=
      [(TOKEN_CACHE_PREFIX ++ "abcdefgh12345678abcdefgh12345678", samplePayload, TOKEN_CACHE_TTL)],
    roleEntries := [(ROLE_CACHE_PREFIX ++ "user-1", ["receptionist"], ROLE_CACHE_TTL)] }

/-- A 33-character token whose first 32 characters match `sampleCache`'s
token entry. -/
def sampleToken1 : String := "abcdefgh12345678abcdefgh12345678X"

/-- Another 33-character token with the same first 32 characters. -/
def sampleToken2 : String := "abcdefgh12345678abcdefgh12345678Y"

/-- A verifier that never succeeds (used to show cached results are served
without invoking any verification method). -/
def failingVerifier : String → Option Payload := fun _ => none

/-- A role fetch that always raises conceptually (returns a sentinel list);
used to show cached roles are served without re-resolving. -/
def sentinelFetch : String → Payload → List String := fun _ _ => ["SENTINEL"]

/-- A payload whose role claim is the default `'authenticated'` but whose
app metadata names a role. -/
def authenticatedRolePayload : Payload :=
  { sub := some "user-2", role := some "authenticated",
    app_metadata := { role := some "admin" } }

/-- A payload with a zero `exp` claim and a mismatched issuer. -/
def zeroExpPayload : Payload :=
  { sub := some "user-3", exp := some 0, iss := some "https://evil.example" }

/-- The receptionist database used to evaluate the status-transition
endpoints: one pending appointment and the four status rows. -/
def sampleReceptionDB : ReceptionDB :=
  { appointments :=
      [{ appointment_id := 1, patient_id := 7, appointment_status_id := some 1,
         appointment_date := some "2025-09-27",
         appointment_start_time := some "09:00",
         payment_status := some "Unpaid" }],
    statuses :=
      [{ appointment_status_id := 1, appointment_status_name := "Pending" },
       { appointment_status_id := 2, appointment_status_name := "Approved" },
       { appointment_status_id := 3, appointment_status_name := "Cancelled" },
       { appointment_status_id := 4, appointment_status_name := "Billed" }] }

/-- `sampleReceptionDB` with the appointment's status replaced by id `n`;
every other persisted field is untouched and no remarks are stored anywhere. -/
def sampleReceptionDBWith (n : Nat) : ReceptionDB :=
  { appointments :=
      [{ appointment_id := 1, patient_id := 7, appointment_status_id := some n,
         appointment_date := some "2025-09-27",
         appointment_start_time := some "09:00",
         payment_status := some "Unpaid" }],
    statuses := sampleReceptionDB.statuses }

/-- A one-row appointment listing with status `Approved`. -/
def sampleApptRow : ApptRow :=
  { appointment_id := 1, status_name := some "Approved",
    appointment_date := some "2025-09-27", patient_last_name := "Doe" }

/-! ## Theorems -/

/-- Helper: the method loop returns `None` when every listed method fails or
raises. -/
theorem tryMethods_eq_none_of_all_fail (run : VMethod → Except String (Option Payload)) :
    ∀ l : List VMethod, (∀ m ∈ l, methodFails (run m)) → tryMethods run l = none := by
  intro l
  induction l with
  | nil => intro _; rfl
  | cons m rest ih =>
    intro h
    have hm := h m (List.mem_cons_self m rest)
    cases hrun : run m with
    | error e =>
      simp only [tryMethods, hrun]
      exact ih (fun m' hm' => h m' (List.mem_cons_of_mem m hm'))
    | ok o =>
      cases o with
      | none =>
        simp only [tryMethods, hrun]
        exact ih (fun m' hm' => h m' (List.mem_cons_of_mem m hm'))
      | some p => exact absurd hrun (hm p)

/-- Helper: the method loop returns the payload of the first succeeding
method, skipping any prefix of failing or raising methods. -/
theorem tryMethods_first_success (run : VMethod → Except String (Option Payload))
    (m : VMethod) (p : Payload) (hm : run m = Except.ok (some p)) :
    ∀ l₁ l₂ : List VMethod, (∀ m' ∈ l₁, methodFails (run m')) →
      tryMethods run (l₁ ++ m :: l₂) = some p := by
  intro l₁
  induction l₁ with
  | nil => intro l₂ _; simp [tryMethods, hm]
  | cons a t ih =>
    intro l₂ h
    have ha := h a (List.mem_cons_self a t)
    cases hrun : run a with
    | error e =>
      simp only [List.cons_append, tryMethods, hrun]
      exact ih l₂ (fun m' hm' => h m' (List.mem_cons_of_mem a hm'))
    | ok o =>
      cases o with
      | none =>
        simp only [List.cons_append, tryMethods, hrun]
        exact ih l₂ (fun m' hm' => h m' (List.mem_cons_of_mem a hm'))
      | some q => exact absurd hrun (ha q)

/-- C1: for every non-empty token and every preferred_method setting,
`verify_token_combined` tries the methods in the order given by
`methods_to_try` and returns the result of the first method that returns a
non-None payload; if every method in the list fails or raises, it returns
None. -/
theorem c1_verify_token_combined_first_success (env : AuthEnv)
    (run : VMethod → Except String (Option Payload)) (token preferred_method : String)
    (htok : token ≠ "") :
    (∀ (l₁ : List VMethod) (m : VMethod) (l₂ : List VMethod) (p : Payload),
        methods_to_try env preferred_method = l₁ ++ m :: l₂ →
        (∀ m' ∈ l₁, methodFails (run m')) → run m = Except.ok (some p) →
        verify_token_combined env run token preferred_method = some p)
    ∧ ((∀ m ∈ methods_to_try env preferred_method, methodFails (run m)) →
        verify_token_combined env run token preferred_method = none) := by
  constructor
  · intro l₁ m l₂ p hsplit hfail hok
    simp only [verify_token_combined, if_neg htok, hsplit]
    exact tryMethods_first_success run m p hok l₁ l₂ hfail
  · intro hfail
    simp only [verify_token_combined, if_neg htok]
    exact tryMethods_eq_none_of_all_fail run _ hfail

/-- C1 witness: with the client preference and an oracle on which every
method succeeds, the combined verifier returns the first method's payload. -/
theorem c1_witness :
    verify_token_combined sampleEnv sampleRunAllOk "tok" "client" = some samplePayload :=
  (c1_verify_token_combined_first_success sampleEnv sampleRunAllOk "tok" "client"
      (by decide)).1
    [] VMethod.client [VMethod.api, VMethod.fallback] samplePayload rfl
    (by intro m hm; cases hm) rfl

/-- C2 counterexample: with DEBUG off and the explicit `'client'` preference
the unverified local decode is still in the list of methods tried, and is in
fact used when the other methods return `None`. -/
theorem c2_counterexample :
    sampleEnv.debug = false ∧
    VMethod.fallback ∈ methods_to_try sampleEnv "client" ∧
    verify_token_combined sampleEnv sampleRunOnlyFallback "tok" "client" =
      some samplePayload := by
  refine ⟨rfl, ?_, rfl⟩
  simp [methods_to_try]

/-- C2 amended: the unverified local decode is in the list of methods tried
exactly when the preference is one of the explicit values `'client'`, `'api'`
or `'fallback'`, or DEBUG is enabled (the `'auto'`/default branch only adds
it in DEBUG mode). -/
theorem c2_fallback_in_methods_iff (env : AuthEnv) (preferred_method : String) :
    VMethod.fallback ∈ methods_to_try env preferred_method ↔
      preferred_method = "client" ∨ preferred_method = "api" ∨
      preferred_method = "fallback" ∨ env.debug = true := by
  unfold methods_to_try
  by_cases h1 : preferred_method = "client"
  · simp [h1]
  · by_cases h2 : preferred_method = "api"
    · simp [h1, h2]
    · by_cases h3 : preferred_method = "fallback"
      · simp [h1, h2, h3]
      · cases hca : env.clientAvailable <;> cases hd : env.debug <;>
          simp [h1, h2, h3, hca, hd]

/-- C3: verified-token results are cached under `TOKEN_CACHE_PREFIX` plus the
token's first 32 characters with a 10-minute TTL, and resolved roles under
`ROLE_CACHE_PREFIX` plus the user id with a 5-minute TTL.  On a token-cache
hit the cached payload is returned unchanged for every verifier (so no
verification method is invoked), and two tokens sharing a 32-character prefix
hit the same entry; on a miss a successful verification is stored with
`TOKEN_CACHE_TTL`.  Likewise `_get_user_roles` returns a cached role list
without invoking the resolver. -/
theorem c3_cache_behaviour :
    TOKEN_CACHE_TTL = 600 ∧ ROLE_CACHE_TTL = 300 ∧
    (∀ (verify : String → Option Payload) (st : CacheState) (t1 t2 : String)
        (p : Payload),
      t1.take 32 = t2.take 32 →
      st.getToken (TOKEN_CACHE_PREFIX ++ t1.take 32) = some p →
      verify_token_with_cache verify st t1 = (some p, st) ∧
      verify_token_with_cache verify st t2 = (some p, st)) ∧
    (∀ (verify : String → Option Payload) (st : CacheState) (token : String)
        (p : Payload),
      st.getToken (TOKEN_CACHE_PREFIX ++ token.take 32) = none →
      verify token = some p →
      verify_token_with_cache verify st token =
        (some p, st.setToken (TOKEN_CACHE_PREFIX ++ token.take 32) p TOKEN_CACHE_TTL)) ∧
    (∀ (fetch : String → Payload → List String) (st : CacheState) (uid : String)
        (payload : Payload) (rs : List String),
      st.getRoles (ROLE_CACHE_PREFIX ++ uid) = some rs →
      get_user_roles fetch st uid payload = (rs, st)) := by
  refine ⟨rfl, rfl, ?_, ?_, ?_⟩
  · intro verify st t1 t2 p hpre hhit
    constructor
    · simp [verify_token_with_cache, hhit]
    · have hhit2 : st.getToken (TOKEN_CACHE_PREFIX ++ t2.take 32) = some p := by
        rw [← hpre]; exact hhit
      simp [verify_token_with_cache, hhit2]
  · intro verify st token p hmiss hver
    simp [verify_token_with_cache, hmiss, hver]
  · intro fetch st uid payload rs hhit
    simp [get_user_roles, hhit]

set_option maxRecDepth 8192 in
/-- C3 witness: a cache holding an entry for a 32-character prefix serves two
different tokens with that prefix from the cache, with a verifier that never
succeeds; a cached role list is likewise served without invoking the
resolver. -/
theorem c3_witness :
    verify_token_with_cache failingVerifier sampleCache sampleToken1 =
      (some samplePayload, sampleCache) ∧
    verify_token_with_cache failingVerifier sampleCache sampleToken2 =
      (some samplePayload, sampleCache) ∧
    get_user_roles sentinelFetch sampleCache "user-1" samplePayload =
      (["receptionist"], sampleCache) := by
  have h := c3_cache_behaviour
  have h1 := h.2.2.1 failingVerifier sampleCache sampleToken1 sampleToken2
    samplePayload (by decide) (by decide)
  exact ⟨h1.1, h1.2,
    h.2.2.2.2 sentinelFetch sampleCache "user-1" samplePayload ["receptionist"]
      (by decide)⟩

/-- Helper: first-non-empty of a singleton is that list. -/
theorem firstNonEmptyList_single (l : List String) : firstNonEmptyList [l] = l := by
  cases l <;> simp [firstNonEmptyList]

/-- Helper: guarding a list with its own emptiness test is the identity. -/
theorem ite_nil_or_self (l : List String) :
    (if l = [] then ([] : List String) else l) = l := by
  split <;> simp_all

/-- Helper: a truthy `app_metadata['roles']` value normalises to a non-empty
list. -/
theorem RolesVal.toList_ne_nil_of_truthy (v : RolesVal) (h : v.truthy = true) :
    v.toList.isEmpty = false := by
  cases v with
  | ofList xs => cases xs <;> simp_all [RolesVal.truthy, RolesVal.toList]
  | ofStr s => simp [RolesVal.toList]

/-- Helper: source 4 of the role resolution equals the roles-table source. -/
theorem fetchRolesFromTable_eq (rr : Except String (List String)) :
    fetchRolesFromTable rr = roleSourceTable rr := by
  cases rr with
  | error e => rfl
  | ok roles => cases roles <;> simp [fetchRolesFromTable, roleSourceTable]

/-- Helper: sources 3-4 of the role resolution take the first non-empty of
the profile and roles-table sources. -/
theorem fetchRolesFromLookups_eq (pr : Except String (Option Profile))
    (rr : Except String (List String)) :
    fetchRolesFromLookups pr rr =
      firstNonEmptyList [roleSourceProfile pr, roleSourceTable rr] := by
  cases pr with
  | error e =>
    simp [fetchRolesFromLookups, roleSourceProfile, fetchRolesFromTable_eq,
      firstNonEmptyList, firstNonEmptyList_single, ite_nil_or_self]
  | ok op =>
    cases op with
    | none =>
      simp [fetchRolesFromLookups, roleSourceProfile, fetchRolesFromTable_eq,
        firstNonEmptyList, firstNonEmptyList_single, ite_nil_or_self]
    | some prof =>
      cases hr : prof.role with
      | none =>
        simp [fetchRolesFromLookups, roleSourceProfile, hr, fetchRolesFromTable_eq,
          firstNonEmptyList, firstNonEmptyList_single, ite_nil_or_self]
      | some r =>
        by_cases hre : r = "" <;>
          simp [fetchRolesFromLookups, roleSourceProfile, hr, hre,
            fetchRolesFromTable_eq, firstNonEmptyList, firstNonEmptyList_single,
            ite_nil_or_self]

/-- Helper: the `app_metadata['role']` step followed by the lookups takes the
first non-empty of the corresponding sources. -/
theorem fetchRolesAfterMeta_eq (pr : Except String (Option Profile))
    (rr : Except String (List String)) (p : Payload) :
    fetchRolesAfterMeta pr rr p =
      firstNonEmptyList [roleSourceMetaRole p, roleSourceProfile pr,
        roleSourceTable rr] := by
  cases hr : p.app_metadata.role with
  | none =>
    simp [fetchRolesAfterMeta, roleSourceMetaRole, hr, fetchRolesFromLookups_eq,
      firstNonEmptyList]
  | some r =>
    by_cases hre : r = "" <;>
      simp [fetchRolesAfterMeta, roleSourceMetaRole, hr, hre,
        fetchRolesFromLookups_eq, firstNonEmptyList]

/-- Helper: sources 2-4 of the role resolution take the first non-empty of
the metadata, profile and roles-table sources. -/
theorem fetchRolesAfterTokenRole_eq (pr : Except String (Option Profile))
    (rr : Except String (List String)) (p : Payload) :
    fetchRolesAfterTokenRole pr rr p =
      firstNonEmptyList [roleSourceMeta p, roleSourceProfile pr,
        roleSourceTable rr] := by
  cases hv : p.app_metadata.roles with
  | none =>
    rw [show roleSourceMeta p = roleSourceMetaRole p by simp [roleSourceMeta, hv]]
    simp [fetchRolesAfterTokenRole, hv, fetchRolesAfterMeta_eq]
  | some v =>
    cases ht : v.truthy with
    | false =>
      rw [show roleSourceMeta p = roleSourceMetaRole p by simp [roleSourceMeta, hv, ht]]
      simp [fetchRolesAfterTokenRole, hv, ht, fetchRolesAfterMeta_eq]
    | true =>
      have hne := RolesVal.toList_ne_nil_of_truthy v ht
      simp [fetchRolesAfterTokenRole, hv, ht, roleSourceMeta, firstNonEmptyList, hne]

/-- C4 amended: the role resolver checks the token's role claim (where the
default value `'authenticated'` counts as empty), then the app_metadata
roles, then the user-profile lookup, then the roles-table lookup, in that
order, and returns the first non-empty result as a list; if all four sources
are empty (or the lookups raise), it returns the empty list. -/
theorem c4_roles_first_non_empty (profileRes : Except String (Option Profile))
    (rolesRes : Except String (List String)) (payload : Payload) :
    fetch_roles_from_multiple_sources profileRes rolesRes payload =
      firstNonEmptyList [roleSourceToken payload, roleSourceMeta payload,
        roleSourceProfile profileRes, roleSourceTable rolesRes] := by
  cases hr : payload.role with
  | none =>
    simp [fetch_roles_from_multiple_sources, roleSourceToken, hr,
      fetchRolesAfterTokenRole_eq, firstNonEmptyList]
  | some token_role =>
    by_cases hcond : token_role ≠ "" ∧ token_role ≠ "authenticated"
    · simp [fetch_roles_from_multiple_sources, roleSourceToken, hr, hcond,
        firstNonEmptyList]
    · simp [fetch_roles_from_multiple_sources, roleSourceToken, hr, hcond,
        fetchRolesAfterTokenRole_eq, firstNonEmptyList]

/-- C4 counterexample: a payload whose token role claim is the (non-empty)
default `'authenticated'` and whose app metadata names `admin`: the code
returns `admin`, while the first non-empty source read literally is the token
role claim `authenticated`. -/
theorem c4_counterexample :
    fetch_roles_from_multiple_sources (Except.ok none) (Except.ok [])
      authenticatedRolePayload = ["admin"] ∧
    firstNonEmptyList [roleSourceTokenLiteral authenticatedRolePayload,
      roleSourceMeta authenticatedRolePayload,
      roleSourceProfile (Except.ok none), roleSourceTable (Except.ok [])] =
      ["authenticated"] := by
  exact ⟨rfl, rfl⟩

/-- C5 counterexample: a request without a Bearer authorization header makes
`authenticate` return `None` (here: `skip`) — neither an authenticated-user
object nor an authentication failure, so a third outcome exists. -/
theorem c5_counterexample :
    authenticate failingVerifier sentinelFetch sampleCache "" =
      (AuthOutcome.skip, sampleCache) := rfl

/-- C5 amended: `authenticate` declines (returns `None`) exactly when the
authorization header does not start with the word `bearer`
(case-insensitively); on a Bearer header the outcome is an
authenticated-user object together with the token — exactly when the
(cached) verification of the single token word yields a payload with a
non-empty `sub` — or a raised authentication failure; no other outcome
exists. -/
theorem c5_authenticate_outcomes (verify : String → Option Payload)
    (fetch : String → Payload → List String) (st : CacheState)
    (auth_header : String) :
    ((authenticate verify fetch st auth_header).1 = AuthOutcome.skip ↔
      splitWS auth_header = [] ∨
      ∃ w rest, splitWS auth_header = w :: rest ∧ strToLower w ≠ "bearer")
    ∧ ((∃ u tok, (authenticate verify fetch st auth_header).1 =
          AuthOutcome.ok u tok) ↔
      ∃ w token p uid, splitWS auth_header = [w, token] ∧ strToLower w = "bearer" ∧
        (verify_token_with_cache verify st token).1 = some p ∧
        p.sub = some uid ∧ uid ≠ "")
    ∧ ((authenticate verify fetch st auth_header).1 = AuthOutcome.skip ∨
       (∃ m, (authenticate verify fetch st auth_header).1 = AuthOutcome.fail m) ∨
       (∃ u tok, (authenticate verify fetch st auth_header).1 =
          AuthOutcome.ok u tok)) := by
  refine ⟨?_, ?_, ?_⟩
  · cases hsp : splitWS auth_header with
    | nil => simp [authenticate, hsp]
    | cons w rest =>
      by_cases hw : strToLower w = "bearer"
      · cases rest with
        | nil => simp [authenticate, hsp, hw]
        | cons token rest2 =>
          cases rest2 with
          | nil =>
            cases hv : (verify_token_with_cache verify st token).1 with
            | none => simp [authenticate, hsp, hw, hv]
            | some payload =>
              cases hsub : payload.sub with
              | none => simp [authenticate, hsp, hw, hv, hsub]
              | some uid =>
                by_cases huid : uid = "" <;>
                  simp [authenticate, hsp, hw, hv, hsub, huid]
          | cons _ _ => simp [authenticate, hsp, hw]
      · simp [authenticate, hsp, hw]
  · cases hsp : splitWS auth_header with
    | nil => simp [authenticate, hsp]
    | cons w rest =>
      by_cases hw : strToLower w = "bearer"
      · cases rest with
        | nil => simp [authenticate, hsp, hw]
        | cons token rest2 =>
          cases rest2 with
          | nil =>
            cases hv : (verify_token_with_cache verify st token).1 with
            | none => simp [authenticate, hsp, hw, hv]
            | some payload =>
              cases hsub : payload.sub with
              | none => simp [authenticate, hsp, hw, hv, hsub]
              | some uid =>
                by_cases huid : uid = ""
                · simp [authenticate, hsp, hw, hv, hsub, huid]
                · simp [authenticate, hsp, hw, hv, hsub, huid]
                  exact ⟨w, token, ⟨rfl, rfl⟩, hw, payload, hv, uid, hsub, huid⟩
          | cons t2 rest3 => simp [authenticate, hsp, hw]
      · simp [authenticate, hsp, hw]
        intro x y hwx hrest hlow
        rw [← hwx] at hlow
        exact absurd hlow hw
  · cases h : (authenticate verify fetch st auth_header).1 with
    | skip => exact Or.inl rfl
    | fail m => exact Or.inr (Or.inl ⟨m, rfl⟩)
    | ok u tok => exact Or.inr (Or.inr ⟨u, tok, rfl⟩)

/-- C6: `IsRole.has_permission` returns true exactly when the request carries
an authenticated user one of whose roles appears (case-insensitively) in the
view's declared allow-list; in particular it is false for a missing or
unauthenticated user and for an empty role list. -/
theorem c6_has_permission_iff (allowed_roles : List String)
    (user : Option RequestUser) :
    IsRole.has_permission (IsRole.init allowed_roles) user = true ↔
      ∃ u, user = some u ∧ u.is_authenticated = true ∧
        ∃ r ∈ u.roles, strToLower r ∈ allowed_roles.map strToLower := by
  cases user with
  | none => simp [IsRole.has_permission]
  | some u =>
    cases hauth : u.is_authenticated <;>
      simp [IsRole.has_permission, IsRole.init, hauth, List.any_eq_true]

/-- C7: evaluating the three status-transition endpoints on a database with
one existing (Pending) appointment.  Each succeeds with its 200 message and
sets only the appointment's status foreign key; the resulting database is the
same for every submitted remarks value, because `TblAppointment` declares no
`remarks` field and `save()` therefore never persists the assigned remarks. -/
theorem c7_status_transitions_drop_remarks :
    (∀ req_remarks : Option String,
      approve_appointment_put sampleReceptionDB 1 req_remarks =
        Except.ok ("Appointment marked as Approved", sampleReceptionDBWith 2)) ∧
    (∀ req_remarks : Option String,
      cancel_appointment_put sampleReceptionDB 1 req_remarks =
        Except.ok ("Appointment marked as Cancelled", sampleReceptionDBWith 3)) ∧
    (∀ req_remarks : Option String,
      bill_appointment_put sampleReceptionDB 1 req_remarks =
        Except.ok ("Appointment marked as Billed", sampleReceptionDBWith 4)) :=
  ⟨fun _ => rfl, fun _ => rfl, fun _ => rfl⟩

/-- Helper: composing two filters filters by the conjunction, in application
order. -/
theorem filter_filter_comm {α : Type} (l : List α) (p q : α → Bool) :
    (l.filter p).filter q = l.filter (fun a => p a && q a) := by
  rw [List.filter_filter]
  exact List.filter_congr (fun x _ => Bool.and_comm _ _)

/-- C8 amended: the list endpoint returns exactly the appointments matching
every supplied, truthy query parameter, where a status value outside the
valid set imposes no constraint (it is silently ignored); with no parameters
it returns all appointments. -/
theorem c8_queryset_filters (db : List ApptRow)
    (status_param date_param patient_param : Option String) :
    appointment_list_queryset db status_param date_param patient_param =
      db.filter (fun a => matchesParams status_param date_param patient_param a) ∧
    appointment_list_queryset db none none none = db := by
  constructor
  · cases status_param with
    | none =>
      cases date_param with
      | none =>
        cases patient_param with
        | none => simp [appointment_list_queryset, matchesParams, List.filter_true]
        | some p =>
          by_cases hp : p = "" <;>
            simp [appointment_list_queryset, matchesParams, hp, List.filter_true]
      | some d =>
        by_cases hd : d = "" <;>
        cases patient_param with
        | none =>
          simp [appointment_list_queryset, matchesParams, hd, List.filter_true]
        | some p =>
          by_cases hp : p = "" <;>
            simp [appointment_list_queryset, matchesParams, hd, hp, List.filter_true,
              Bool.and_comm, Bool.and_left_comm, Bool.and_assoc]
    | some st =>
      by_cases hst : st = "" <;> by_cases hv : st ∈ valid_statuses <;>
      cases date_param with
      | none =>
        cases patient_param with
        | none =>
          simp [appointment_list_queryset, matchesParams, hst, hv, List.filter_true]
        | some p =>
          by_cases hp : p = "" <;>
            simp [appointment_list_queryset, matchesParams, hst, hv, hp,
              List.filter_true, Bool.and_comm, Bool.and_left_comm, Bool.and_assoc]
      | some d =>
        by_cases hd : d = "" <;>
        cases patient_param with
        | none =>
          simp [appointment_list_queryset, matchesParams, hst, hv, hd,
            List.filter_true, Bool.and_comm, Bool.and_left_comm, Bool.and_assoc]
        | some p =>
          by_cases hp : p = "" <;>
            simp [appointment_list_queryset, matchesParams, hst, hv, hd, hp,
              List.filter_true, Bool.and_comm, Bool.and_left_comm, Bool.and_assoc]
  · rfl

/-- C8 counterexample: with the unsupported status value `Bogus` the endpoint
returns the `Approved` appointment unfiltered, so not every returned
appointment matches the supplied status parameter. -/
theorem c8_counterexample :
    appointment_list_queryset [sampleApptRow] (some "Bogus") none none =
      [sampleApptRow] ∧
    (sampleApptRow.status_name == some "Bogus") = false :=
  ⟨rfl, rfl⟩

/-- C9 amended: the unverified local decode returns None for every token that
fails to decode and for every decodable token whose `exp` claim is truthy
(non-zero) and earlier than the current time; every other decodable token is
returned (with the `jwt_fallback` marker) — in particular the result never
depends on the expected issuer, so an `iss` mismatch is never rejected. -/
theorem c9_jwt_fallback_behaviour (decodeRes : Except String Payload)
    (current_time : Int) (iss1 iss2 : String) :
    (verify_token_with_jwt_fallback decodeRes current_time iss1 =
      verify_token_with_jwt_fallback decodeRes current_time iss2) ∧
    (∀ e, decodeRes = Except.error e →
      verify_token_with_jwt_fallback decodeRes current_time iss1 = none) ∧
    (∀ p exp_val, decodeRes = Except.ok p → p.exp = some exp_val →
      exp_val ≠ 0 → current_time > exp_val →
      verify_token_with_jwt_fallback decodeRes current_time iss1 = none) ∧
    (∀ p, decodeRes = Except.ok p →
      (p.exp = none ∨ ∃ e, p.exp = some e ∧ (e = 0 ∨ ¬current_time > e)) →
      verify_token_with_jwt_fallback decodeRes current_time iss1 =
        some { p with verification_method := some "jwt_fallback" }) := by
  refine ⟨rfl, ?_, ?_, ?_⟩
  · intro e he
    rw [he]
    rfl
  · intro p exp_val hok hexp hne hlt
    rw [hok]
    simp [verify_token_with_jwt_fallback, hexp, hne, hlt]
  · intro p hok hcases
    rw [hok]
    cases hcases with
    | inl hnone => simp [verify_token_with_jwt_fallback, hnone]
    | inr hsome =>
      rcases hsome with ⟨e, he, hdisj⟩
      cases hdisj with
      | inl hzero => simp [verify_token_with_jwt_fallback, he, hzero]
      | inr hle => simp [verify_token_with_jwt_fallback, he, hle]

/-- C9 witness: an expired token (non-zero `exp` in the past) is rejected; a
decode failure is rejected; an unexpired token with a mismatched issuer is
accepted and marked. -/
theorem c9_witness :
    verify_token_with_jwt_fallback (Except.ok { sub := some "u", exp := some 5 })
      10 "https://proj.supabase.co/auth/v1" = none ∧
    verify_token_with_jwt_fallback (Except.error "DecodeError") 10 "x" = none ∧
    verify_token_with_jwt_fallback (Except.ok zeroExpPayload) 1000 "expected-iss" =
      some { zeroExpPayload with verification_method := some "jwt_fallback" } := by
  refine ⟨?_, ?_, ?_⟩
  · exact (c9_jwt_fallback_behaviour (Except.ok { sub := some "u", exp := some 5 })
      10 "https://proj.supabase.co/auth/v1" "x").2.2.1
      { sub := some "u", exp := some 5 } 5 rfl rfl (by decide) (by decide)
  · exact (c9_jwt_fallback_behaviour (Except.error "DecodeError") 10 "x" "y").2.1
      "DecodeError" rfl
  · exact (c9_jwt_fallback_behaviour (Except.ok zeroExpPayload) 1000 "expected-iss"
      "other").2.2.2 zeroExpPayload rfl (Or.inr ⟨0, rfl, Or.inl rfl⟩)

/-- C9 counterexample: a decodable token whose `exp` claim is `0` — earlier
than the current time `1000` — is not rejected: the zero (falsy) `exp` skips
the expiry check, so the code returns the payload where the claim demands
`None`. -/
theorem c9_counterexample :
    zeroExpPayload.exp = some 0 ∧ ((0 : Int) < 1000) = True ∧
    verify_token_with_jwt_fallback (Except.ok zeroExpPayload) 1000
      "https://proj.supabase.co/auth/v1" =
      some { zeroExpPayload with verification_method := some "jwt_fallback" } :=
  ⟨rfl, by simp, rfl⟩

/-- Helper: `any` of a lowered predicate only depends on the lowered list. -/
theorem any_strToLower_congr (p : String → Bool) (l l' : List String)
    (h : l.map strToLower = l'.map strToLower) :
    l.any (fun r => p (strToLower r)) = l'.any (fun r => p (strToLower r)) := by
  have h1 : (l.map strToLower).any p = (l'.map strToLower).any p := by rw [h]
  rw [List.any_map, List.any_map] at h1
  exact h1

/-- C10: replacing any role string, role-name argument, or allow-list entry
by a string with the same letters in different case changes nothing:
`has_role`, `has_any_role` and `IsRole.has_permission` (through `__init__`'s
lowering) return the same answers. -/
theorem c10_roles_case_insensitive (rs rs' : List String) (n n' : String)
    (ns ns' : List String) (allowed allowed' : List String) (auth : Bool)
    (hrs : rs.map strToLower = rs'.map strToLower)
    (hn : strToLower n = strToLower n')
    (hns : ns.map strToLower = ns'.map strToLower)
    (hal : allowed.map strToLower = allowed'.map strToLower) :
    SupabaseUser.hasRole rs n = SupabaseUser.hasRole rs' n' ∧
    SupabaseUser.hasAnyRole rs ns = SupabaseUser.hasAnyRole rs' ns' ∧
    IsRole.has_permission (IsRole.init allowed)
        (some { roles := rs, is_authenticated := auth }) =
      IsRole.has_permission (IsRole.init allowed')
        (some { roles := rs', is_authenticated := auth }) := by
  refine ⟨?_, ?_, ?_⟩
  · unfold SupabaseUser.hasRole
    rw [hrs, hn]
  · unfold SupabaseUser.hasAnyRole SupabaseUser.hasRole
    rw [hrs]
    exact any_strToLower_congr (fun x => (rs'.map strToLower).contains x) ns ns' hns
  · unfold IsRole.has_permission IsRole.init
    cases auth with
    | false => rfl
    | true =>
      simp only [Bool.not_true, Bool.false_eq_true, if_false]
      rw [hal]
      exact any_strToLower_congr
        (fun x => (allowed'.map strToLower).contains x) rs rs' hrs

/-- C10 witness: upper/lower-case variants of the role strings, the queried
role name and the allow-list leave all three predicates unchanged on a
concrete user. -/
theorem c10_witness :
    SupabaseUser.hasRole ["Admin", "receptionist"] "RECEPTIONIST" =
      SupabaseUser.hasRole ["ADMIN", "Receptionist"] "receptionist" ∧
    SupabaseUser.hasAnyRole ["Admin", "receptionist"] ["Cashier", "ADMIN"] =
      SupabaseUser.hasAnyRole ["ADMIN", "Receptionist"] ["cashier", "Admin"] ∧
    IsRole.has_permission (IsRole.init ["Receptionist"])
        (some { roles := ["Admin", "receptionist"], is_authenticated := true }) =
      IsRole.has_permission (IsRole.init ["RECEPTIONIST"])
        (some { roles := ["ADMIN", "Receptionist"], is_authenticated := true }) :=
  c10_roles_case_insensitive ["Admin", "receptionist"] ["ADMIN", "Receptionist"]
    "RECEPTIONIST" "receptionist" ["Cashier", "ADMIN"] ["cashier", "Admin"]
    ["Receptionist"] ["RECEPTIONIST"] true (by decide) (by decide) (by decide)
    (by decide)

end DentalClinic

